import Mathlib

/-!
Shallow embedding of `tasks/mds_strays.py` (`TestStrays._test_throttling` and
its `create_script` workload), the throttle-verification harness for the MDS
stray-purge queue.

The harness polls `perf dump` counters once per second.  We model the stats
source as a stream `perf : Nat → StatsSnapshot` indexed by the `elapsed`
counter (which is exactly the iteration number, since each non-terminating
iteration sleeps one second and increments `elapsed` by one).  Each raise site
of the Python loop becomes a constructor of `RunOutcome`:
  * `Timeout`        — `RuntimeError("Timeout waiting for ...")`, the spec's
                       `TimeoutError`, carrying the snapshot of the iteration;
  * `Overshoot`      — `RuntimeError("Saw more strays than expected ...")`,
                       the spec's `InvariantViolation` ("more objects purged
                       than expected"), carrying the offending snapshot;
  * `BoundViolation` — `RuntimeError("<counter> violates threshold v/b")`,
                       the spec's `InvariantViolation` naming a counter and a
                       bound; we record the counter name and the two numbers
                       interpolated into the message.
-/

/-- One `perf dump` snapshot of the `mds_cache` counters read by the test. -/
structure StatsSnapshot where
  num_strays : Nat
  num_strays_purging : Nat
  num_purge_ops : Nat
  num_strays_delayed : Nat
  strays_created : Nat
  strays_purged : Nat
deriving DecidableEq, Repr

/-- The two throttle kinds: `OPS_THROTTLE = 1`, `FILES_THROTTLE = 2` in the
source; any other value raises `NotImplemented` before the loop starts, so the
loop itself only ever sees these two. -/
inductive ThrottleType where
  | OPS_THROTTLE
  | FILES_THROTTLE
deriving DecidableEq, Repr

/-- Result of processing one sampled snapshot (the loop body after the timeout
check and before the sleep). -/
inductive StepResult where
  | complete (files_high_water ops_high_water : Nat)
  | overshoot (mdc_stats : StatsSnapshot)
  | bound_violation (counter : String) (value bound : Nat)
  | next (files_high_water ops_high_water : Nat)
deriving DecidableEq, Repr

/-- One iteration of the monitor loop on a snapshot `mdc_stats` (source lines
72–99): update the two high-water marks, test completion
(`total_strays_purged == total_inodes`), test overshoot
(`total_strays_purged > total_inodes`), then the per-kind throttle-bound test.
Both kinds compare `num_strays_purging` against `mds_max_purge_files`; the
`OPS_THROTTLE` branch reports `num_purge_ops` and `mds_max_purge_ops` in its
error message, the `FILES_THROTTLE` branch reports `num_strays_purging` and
`mds_max_purge_files`. -/
def throttle_step (throttle_type : ThrottleType)
    (mds_max_purge_ops mds_max_purge_files total_inodes : Nat)
    (files_high_water ops_high_water : Nat) (mdc_stats : StatsSnapshot) :
    StepResult :=
  let files_hw := max files_high_water mdc_stats.num_strays_purging
  let ops_hw := max ops_high_water mdc_stats.num_purge_ops
  if mdc_stats.strays_purged = total_inodes then
    .complete files_hw ops_hw
  else if mdc_stats.strays_purged > total_inodes then
    .overshoot mdc_stats
  else
    match throttle_type with
    | .OPS_THROTTLE =>
      if mdc_stats.num_strays_purging > mds_max_purge_files then
        .bound_violation "num_purge_ops" mdc_stats.num_purge_ops mds_max_purge_ops
      else
        .next files_hw ops_hw
    | .FILES_THROTTLE =>
      if mdc_stats.num_strays_purging > mds_max_purge_files then
        .bound_violation "num_strays_purging" mdc_stats.num_strays_purging mds_max_purge_files
      else
        .next files_hw ops_hw

/-- Terminal outcome of the monitor loop: normal `break` (with the final
`elapsed`, `files_high_water`, `ops_high_water`) or one of the three raise
sites. -/
inductive RunOutcome where
  | Completed (elapsed files_high_water ops_high_water : Nat)
  | Timeout (mdc_stats : StatsSnapshot)
  | Overshoot (mdc_stats : StatsSnapshot)
  | BoundViolation (counter : String) (value bound : Nat)
deriving DecidableEq, Repr

/-- The `while True` monitor loop (source lines 67–106).  Each iteration takes
the snapshot `perf elapsed`, then — before any other test — checks
`elapsed >= purge_timeout` and raises `Timeout` carrying that snapshot; then it
runs `throttle_step`, and on `.next` sleeps one second and re-enters with
`elapsed + 1`. -/
def run_loop (perf : Nat → StatsSnapshot) (throttle_type : ThrottleType)
    (mds_max_purge_ops mds_max_purge_files total_inodes purge_timeout : Nat)
    (elapsed files_high_water ops_high_water : Nat) : RunOutcome :=
  if _h : purge_timeout ≤ elapsed then
    .Timeout (perf elapsed)
  else
    match throttle_step throttle_type mds_max_purge_ops mds_max_purge_files
        total_inodes files_high_water ops_high_water (perf elapsed) with
    | .complete f o => .Completed elapsed f o
    | .overshoot s => .Overshoot s
    | .bound_violation c v b => .BoundViolation c v b
    | .next f o =>
        run_loop perf throttle_type mds_max_purge_ops mds_max_purge_files
          total_inodes purge_timeout (elapsed + 1) f o
termination_by purge_timeout - elapsed
decreasing_by omega

/-- Python `range(start, stop, step)` for a positive `step` on naturals. -/
def pyRange (start stop stride : Nat) : List Nat :=
  (List.range ((stop - start + stride - 1) / stride)).map (fun k => start + k * stride)

def MB : Nat := 1024 * 1024

/-- The `(i, size)` pairs of the files written by `create_script`:
`for i in range(0, 25): for size in range(0, 16*MB, MB)`, one file of `size`
bytes per pair (named with `i` and `size / MB`). -/
def create_script_files : List (Nat × Nat) :=
  (pyRange 0 25 1).flatMap (fun i => (pyRange 0 (16 * MB) MB).map (fun size => (i, size)))

/-- Objects enqueued for purge by `rm -rf delete_me`: the files plus the one
`delete_me` directory. -/
def workload_object_count : Nat := create_script_files.length + 1

/-- `total_inodes = 401` (source line 56). -/
def total_inodes : Nat := 401

/-- `purge_timeout = 600` (source line 63). -/
def purge_timeout : Nat := 600

/-- The monitor loop as invoked by `_test_throttling`: expected count
`total_inodes = 401`, timeout `purge_timeout = 600`, `elapsed`,
`files_high_water` and `ops_high_water` all starting at 0. -/
def run (perf : Nat → StatsSnapshot) (throttle_type : ThrottleType)
    (mds_max_purge_ops mds_max_purge_files : Nat) : RunOutcome :=
  run_loop perf throttle_type mds_max_purge_ops mds_max_purge_files
    total_inodes purge_timeout 0 0 0

/-- The post-loop high-water heuristic (source lines 112–121): returns `true`
exactly when the scenario raises (`... high water is unexpectedly low`).
Python 2 `/` on ints is floor division, i.e. `Nat` division here. -/
def high_water_check_raises (throttle_type : ThrottleType)
    (mds_max_purge_ops mds_max_purge_files ops_high_water files_high_water : Nat) :
    Bool :=
  match throttle_type with
  | .OPS_THROTTLE => ops_high_water < mds_max_purge_ops / 2
  | .FILES_THROTTLE => files_high_water < mds_max_purge_files / 2

/-- The final sanity check on one last snapshot (source lines 124–130):
`true` exactly when all six `assertEqual`s pass. -/
def final_sanity_check (mdc_stats : StatsSnapshot) : Bool :=
  mdc_stats.num_strays == 0 &&
  mdc_stats.num_strays_purging == 0 &&
  mdc_stats.num_strays_delayed == 0 &&
  mdc_stats.num_purge_ops == 0 &&
  mdc_stats.strays_created == total_inodes &&
  mdc_stats.strays_purged == total_inodes

/-! ## Characterizations of one loop iteration -/

theorem throttle_step_complete_iff (throttle_type : ThrottleType)
    (mo mf ti fhw ohw : Nat) (s : StatsSnapshot) (f o : Nat) :
    throttle_step throttle_type mo mf ti fhw ohw s = .complete f o ↔
      s.strays_purged = ti ∧ f = max fhw s.num_strays_purging ∧
        o = max ohw s.num_purge_ops := by
  unfold throttle_step
  cases throttle_type <;> split_ifs <;> simp_all <;> omega

theorem throttle_step_next_iff (throttle_type : ThrottleType)
    (mo mf ti fhw ohw : Nat) (s : StatsSnapshot) (f o : Nat) :
    throttle_step throttle_type mo mf ti fhw ohw s = .next f o ↔
      s.strays_purged < ti ∧ s.num_strays_purging ≤ mf ∧
        f = max fhw s.num_strays_purging ∧ o = max ohw s.num_purge_ops := by
  unfold throttle_step
  cases throttle_type <;> split_ifs <;> simp_all <;> omega

theorem run_loop_timeout_eq (perf : Nat → StatsSnapshot)
    (throttle_type : ThrottleType) (mo mf ti pt e fhw ohw : Nat)
    (h : pt ≤ e) :
    run_loop perf throttle_type mo mf ti pt e fhw ohw = .Timeout (perf e) := by
  rw [run_loop.eq_def]
  simp [h]

theorem run_loop_go_eq (perf : Nat → StatsSnapshot)
    (throttle_type : ThrottleType) (mo mf ti pt e fhw ohw : Nat)
    (h : e < pt) :
    run_loop perf throttle_type mo mf ti pt e fhw ohw =
      match throttle_step throttle_type mo mf ti fhw ohw (perf e) with
      | .complete f o => .Completed e f o
      | .overshoot s => .Overshoot s
      | .bound_violation c v b => .BoundViolation c v b
      | .next f o => run_loop perf throttle_type mo mf ti pt (e + 1) f o := by
  rw [run_loop.eq_def]
  simp [Nat.not_le.mpr h]

/-! ## Invariant of runs that end in `Completed` -/

/-- If the loop, entered at `elapsed = e` with accumulators `fhw`, `ohw`,
breaks with `Completed e' f' o'`, then: the break happened at some `e' ≥ e`
strictly before the timeout; the completing snapshot satisfies the completion
condition; every earlier sample passed the overshoot and throttle-bound tests;
and the returned high-water marks are the running maxima over all samples
`e .. e'` (the completing one included). -/
theorem run_loop_completed_inv (perf : Nat → StatsSnapshot)
    (throttle_type : ThrottleType) (mo mf ti pt : Nat) :
    ∀ n e fhw ohw e' f' o', pt - e ≤ n →
      run_loop perf throttle_type mo mf ti pt e fhw ohw =
        RunOutcome.Completed e' f' o' →
      e ≤ e' ∧ e' < pt ∧ (perf e').strays_purged = ti ∧
        (∀ k, e ≤ k → k < e' →
          (perf k).strays_purged < ti ∧ (perf k).num_strays_purging ≤ mf) ∧
        f' = List.foldl (fun a k => max a (perf k).num_strays_purging) fhw
              (List.range' e (e' + 1 - e)) ∧
        o' = List.foldl (fun a k => max a (perf k).num_purge_ops) ohw
              (List.range' e (e' + 1 - e)) := by
  intro n
  induction n with
  | zero =>
    intro e fhw ohw e' f' o' hle hrun
    rw [run_loop_timeout_eq perf throttle_type mo mf ti pt e fhw ohw (by omega)] at hrun
    exact RunOutcome.noConfusion hrun
  | succ n ih =>
    intro e fhw ohw e' f' o' hle hrun
    rcases Nat.lt_or_ge e pt with hlt | hge
    · rw [run_loop_go_eq perf throttle_type mo mf ti pt e fhw ohw hlt] at hrun
      cases hstep : throttle_step throttle_type mo mf ti fhw ohw (perf e) with
      | complete f o =>
        simp only [hstep, RunOutcome.Completed.injEq] at hrun
        obtain ⟨he, hf, ho⟩ := hrun
        obtain ⟨hpur, hfeq, hoeq⟩ := (throttle_step_complete_iff
          throttle_type mo mf ti fhw ohw (perf e) f o).mp hstep
        subst he hf ho
        refine ⟨Nat.le_refl e, hlt, hpur, ?_, ?_, ?_⟩
        · intro k hk1 hk2; omega
        · simp only [Nat.add_sub_cancel_left, List.range'_one, List.foldl_cons,
            List.foldl_nil]
          omega
        · simp only [Nat.add_sub_cancel_left, List.range'_one, List.foldl_cons,
            List.foldl_nil]
          omega
      | overshoot s =>
        simp only [hstep] at hrun
        exact RunOutcome.noConfusion hrun
      | bound_violation c v b =>
        simp only [hstep] at hrun
        exact RunOutcome.noConfusion hrun
      | next f o =>
        simp only [hstep] at hrun
        obtain ⟨hpur, hbound, hfeq, hoeq⟩ := (throttle_step_next_iff
          throttle_type mo mf ti fhw ohw (perf e) f o).mp hstep
        obtain ⟨h1, h2, h3, h4, h5, h6⟩ :=
          ih (e + 1) f o e' f' o' (by omega) hrun
        refine ⟨by omega, h2, h3, ?_, ?_, ?_⟩
        · intro k hk1 hk2
          rcases Nat.eq_or_lt_of_le hk1 with heq | hgt
          · subst heq; exact ⟨hpur, hbound⟩
          · exact h4 k hgt hk2
        · have hrange : List.range' e (e' + 1 - e) =
              e :: List.range' (e + 1) (e' + 1 - (e + 1)) := by
            have hn : e' + 1 - e = (e' + 1 - (e + 1)) + 1 := by omega
            rw [hn, List.range'_succ]
          rw [hrange, List.foldl_cons, ← hfeq, ← h5]
        · have hrange : List.range' e (e' + 1 - e) =
              e :: List.range' (e + 1) (e' + 1 - (e + 1)) := by
            have hn : e' + 1 - e = (e' + 1 - (e + 1)) + 1 := by omega
            rw [hn, List.range'_succ]
          rw [hrange, List.foldl_cons, ← hoeq, ← h6]
    · rw [run_loop_timeout_eq perf throttle_type mo mf ti pt e fhw ohw hge] at hrun
      exact RunOutcome.noConfusion hrun

theorem throttle_step_overshoot_iff (throttle_type : ThrottleType)
    (mo mf ti fhw ohw : Nat) (s t : StatsSnapshot) :
    throttle_step throttle_type mo mf ti fhw ohw s = .overshoot t ↔
      ti < s.strays_purged ∧ s = t := by
  unfold throttle_step
  cases throttle_type <;> split_ifs <;> simp_all

/-- The loop only ever reads the samples `perf e .. perf pt`: two stats
streams that agree on those indices produce the same outcome. -/
theorem run_loop_agree (perf perf2 : Nat → StatsSnapshot)
    (throttle_type : ThrottleType) (mo mf ti pt : Nat) :
    ∀ n e fhw ohw, e ≤ pt → pt - e ≤ n →
      (∀ k, e ≤ k → k ≤ pt → perf k = perf2 k) →
      run_loop perf throttle_type mo mf ti pt e fhw ohw =
        run_loop perf2 throttle_type mo mf ti pt e fhw ohw := by
  intro n
  induction n with
  | zero =>
    intro e fhw ohw hept hle hagree
    rw [run_loop_timeout_eq perf throttle_type mo mf ti pt e fhw ohw (by omega),
        run_loop_timeout_eq perf2 throttle_type mo mf ti pt e fhw ohw (by omega),
        hagree e (Nat.le_refl e) (by omega)]
  | succ n ih =>
    intro e fhw ohw hept hle hagree
    rcases Nat.lt_or_ge e pt with hlt | hge
    · rw [run_loop_go_eq perf throttle_type mo mf ti pt e fhw ohw hlt,
          run_loop_go_eq perf2 throttle_type mo mf ti pt e fhw ohw hlt,
          ← hagree e (Nat.le_refl e) (by omega)]
      cases hstep : throttle_step throttle_type mo mf ti fhw ohw (perf e) with
      | complete f o => rfl
      | overshoot s => rfl
      | bound_violation c v b => rfl
      | next f o =>
        exact ih (e + 1) f o (by omega) (by omega)
          (fun k hk1 hk2 => hagree k (by omega) hk2)
    · rw [run_loop_timeout_eq perf throttle_type mo mf ti pt e fhw ohw hge,
          run_loop_timeout_eq perf2 throttle_type mo mf ti pt e fhw ohw hge,
          hagree e (Nat.le_refl e) (by omega)]

/-! ## Concrete stub stats streams -/

/-- A pre-completion sample: 100 of 401 purged, 4 strays purging, 3 purge ops
in flight. -/
def wit_snap0 : StatsSnapshot := ⟨50, 4, 3, 0, 401, 100⟩

/-- A completed sample: all transient counters zero, 401 purged. -/
def wit_snap1 : StatsSnapshot := ⟨0, 0, 0, 0, 401, 401⟩

/-- Stub stream: one pre-completion sample, then completed. -/
def wit_perf : Nat → StatsSnapshot := fun n => if n = 0 then wit_snap0 else wit_snap1

/-- A snapshot that satisfies the completion condition (401 purged) while
`num_strays_purging = 999` vastly exceeds any small files limit. -/
def cex_snap : StatsSnapshot := ⟨0, 999, 0, 0, 401, 401⟩

/-- A snapshot seen mid-run under `OPS_THROTTLE`: 100 of 401 purged,
`num_strays_purging = 11` (over a files limit of 10), `num_purge_ops = 5`. -/
def cex2_snap : StatsSnapshot := ⟨20, 11, 5, 0, 300, 100⟩

/-- A snapshot reporting 402 objects purged — more than the expected 401. -/
def over_snap : StatsSnapshot := ⟨0, 0, 0, 0, 402, 402⟩

theorem wit_run_eval :
    run_loop wit_perf .FILES_THROTTLE 100000000 10 401 600 0 0 0 =
      .Completed 1 4 3 := by
  rw [run_loop_go_eq wit_perf .FILES_THROTTLE 100000000 10 401 600 0 0 0 (by omega)]
  rw [show throttle_step .FILES_THROTTLE 100000000 10 401 0 0 (wit_perf 0) =
        .next 4 3 from by decide]
  show run_loop wit_perf .FILES_THROTTLE 100000000 10 401 600 1 4 3 =
    .Completed 1 4 3
  rw [run_loop_go_eq wit_perf .FILES_THROTTLE 100000000 10 401 600 1 4 3 (by omega)]
  rw [show throttle_step .FILES_THROTTLE 100000000 10 401 4 3 (wit_perf 1) =
        .complete 4 3 from by decide]

theorem cex_run_eval :
    run_loop (fun _ => cex_snap) .FILES_THROTTLE 100000000 10 401 600 0 0 0 =
      .Completed 0 999 0 := by
  rw [run_loop_go_eq (fun _ => cex_snap) .FILES_THROTTLE 100000000 10 401 600 0 0 0
        (by omega)]
  rw [show throttle_step .FILES_THROTTLE 100000000 10 401 0 0 cex_snap =
        .complete 999 0 from by decide]

theorem cex2_run_eval :
    run_loop (fun _ => cex2_snap) .OPS_THROTTLE 7 10 401 600 0 0 0 =
      .BoundViolation "num_purge_ops" 5 7 := by
  rw [run_loop_go_eq (fun _ => cex2_snap) .OPS_THROTTLE 7 10 401 600 0 0 0 (by omega)]
  rw [show throttle_step .OPS_THROTTLE 7 10 401 0 0 cex2_snap =
        .bound_violation "num_purge_ops" 5 7 from by decide]

/-! ## Claims -/

/-- C1 (counterexample): the claim "`numStraysPurging <= maxPurgeFiles` holds
at every sample of a run that ends in `Completed`" is false: with the stream
constantly returning `cex_snap` (401 purged, `num_strays_purging = 999`) and
`mds_max_purge_files = 10`, the run ends `Completed` at once, yet its one
(final, completing) sample has `num_strays_purging = 999 > 10` — the
completion test short-circuits the throttle-bound test. -/
theorem C1_counterexample :
    ¬ (∀ (perf : Nat → StatsSnapshot) (throttle_type : ThrottleType)
        (mo mf e' f' o' : Nat),
        run_loop perf throttle_type mo mf total_inodes purge_timeout 0 0 0 =
          RunOutcome.Completed e' f' o' →
        ∀ k, k ≤ e' → (perf k).num_strays_purging ≤ mf) := by
  intro hclaim
  have hk := hclaim (fun _ => cex_snap) .FILES_THROTTLE 100000000 10 0 999 0
    cex_run_eval 0 (Nat.le_refl 0)
  simp [cex_snap] at hk

/-- C1 (amended): for every sampled snapshot that fails both the completion
and the overshoot test, and for both throttle kinds, the harness checks
`num_strays_purging ≤ mds_max_purge_files` and raises on violation; hence in a
run that ends in `Completed`, every sample strictly before the final,
completing one satisfies `num_strays_purging ≤ mds_max_purge_files` (the
completing sample itself is not bound-checked). -/
theorem C1_throttle_bound (perf : Nat → StatsSnapshot)
    (throttle_type : ThrottleType) (mo mf ti pt e' f' o' : Nat)
    (h : run_loop perf throttle_type mo mf ti pt 0 0 0 =
      RunOutcome.Completed e' f' o') :
    ∀ k, k < e' → (perf k).num_strays_purging ≤ mf := by
  intro k hk
  exact ((run_loop_completed_inv perf throttle_type mo mf ti pt pt 0 0 0 e' f' o'
    (by omega) h).2.2.2.1 k (Nat.zero_le k) hk).2

theorem C1_throttle_bound_witness : (wit_perf 0).num_strays_purging ≤ 10 :=
  C1_throttle_bound wit_perf .FILES_THROTTLE 100000000 10 401 600 1 4 3
    wit_run_eval 0 (by omega)

/-- C2 (counterexample): under `OPS_THROTTLE` with `mds_max_purge_ops = 7`,
`mds_max_purge_files = 10` and a snapshot with `num_strays_purging = 11`,
`num_purge_ops = 5`, the loop raises — triggered by the comparison
`num_strays_purging (11) > mds_max_purge_files (10)` — but the error reports
`num_purge_ops (5)` against `mds_max_purge_ops (7)`, which are not the values
whose comparison triggered the failure (5 ≠ 11 and 7 ≠ 10). -/
theorem C2_counterexample :
    run_loop (fun _ => cex2_snap) .OPS_THROTTLE 7 10 401 600 0 0 0 =
      RunOutcome.BoundViolation "num_purge_ops" 5 7 ∧
    cex2_snap.num_strays_purging = 11 ∧ cex2_snap.num_purge_ops = 5 ∧
    (5 ≠ 11 ∧ 7 ≠ 10) :=
  ⟨cex2_run_eval, by decide, by decide, by decide⟩

/-- C2 (amended): when the throttle-bound test fails on a snapshot (one that
failed completion and overshoot, with `num_strays_purging` above
`mds_max_purge_files`), the `FILES_THROTTLE` branch reports exactly the
compared counter and bound (`num_strays_purging`, `mds_max_purge_files`),
while the `OPS_THROTTLE` branch reports `num_purge_ops` and
`mds_max_purge_ops` even though the comparison that triggered the raise was
`num_strays_purging > mds_max_purge_files`. -/
theorem C2_bound_violation_report (throttle_type : ThrottleType)
    (mo mf ti fhw ohw : Nat) (s : StatsSnapshot)
    (hne : s.strays_purged < ti) (hv : mf < s.num_strays_purging) :
    (throttle_type = .FILES_THROTTLE →
      throttle_step throttle_type mo mf ti fhw ohw s =
        .bound_violation "num_strays_purging" s.num_strays_purging mf) ∧
    (throttle_type = .OPS_THROTTLE →
      throttle_step throttle_type mo mf ti fhw ohw s =
        .bound_violation "num_purge_ops" s.num_purge_ops mo) := by
  unfold throttle_step
  cases throttle_type <;> split_ifs <;> simp_all <;> omega

theorem C2_bound_violation_report_witness :
    throttle_step .FILES_THROTTLE 7 10 401 0 0 cex2_snap =
      .bound_violation "num_strays_purging" cex2_snap.num_strays_purging 10 :=
  (C2_bound_violation_report .FILES_THROTTLE 7 10 401 0 0 cex2_snap
    (by decide) (by decide)).1 rfl

/-- C3: at any iteration reached before the timeout, if the sampled snapshot
has `strays_purged` equal to `total_inodes` (= 401), the loop breaks and
returns `Completed` there; if it is strictly greater, the loop raises the
`Overshoot` violation ("Saw more strays than expected"); and conversely any
run (as invoked by the scenario) that returns `Completed` does so at a sample
with `strays_purged = total_inodes`. -/
theorem C3_completion_and_overshoot (perf : Nat → StatsSnapshot)
    (throttle_type : ThrottleType) (mo mf e fhw ohw : Nat)
    (hlt : e < purge_timeout) :
    ((perf e).strays_purged = total_inodes →
      run_loop perf throttle_type mo mf total_inodes purge_timeout e fhw ohw =
        .Completed e (max fhw (perf e).num_strays_purging)
          (max ohw (perf e).num_purge_ops)) ∧
    (total_inodes < (perf e).strays_purged →
      run_loop perf throttle_type mo mf total_inodes purge_timeout e fhw ohw =
        .Overshoot (perf e)) ∧
    total_inodes = 401 ∧
    (∀ e' f' o', run perf throttle_type mo mf = RunOutcome.Completed e' f' o' →
      (perf e').strays_purged = total_inodes) := by
  refine ⟨?_, ?_, rfl, ?_⟩
  · intro hc
    rw [run_loop_go_eq perf throttle_type mo mf total_inodes purge_timeout e fhw ohw hlt,
        (throttle_step_complete_iff throttle_type mo mf total_inodes fhw ohw (perf e)
          (max fhw (perf e).num_strays_purging) (max ohw (perf e).num_purge_ops)).mpr
          ⟨hc, rfl, rfl⟩]
  · intro ho
    rw [run_loop_go_eq perf throttle_type mo mf total_inodes purge_timeout e fhw ohw hlt,
        (throttle_step_overshoot_iff throttle_type mo mf total_inodes fhw ohw (perf e)
          (perf e)).mpr ⟨ho, rfl⟩]
  · intro e' f' o' hrun
    exact (run_loop_completed_inv perf throttle_type mo mf total_inodes purge_timeout
      purge_timeout 0 0 0 e' f' o' (by omega) hrun).2.2.1

/-- Witness for C3, realizing the spec's stub: a source constantly reporting
`strays_purged = 402` makes the monitor raise the overshoot violation instead
of succeeding or hanging. -/
theorem C3_completion_and_overshoot_witness :
    run_loop (fun _ => over_snap) .FILES_THROTTLE 100000000 10 total_inodes
      purge_timeout 0 0 0 = RunOutcome.Overshoot over_snap :=
  (C3_completion_and_overshoot (fun _ => over_snap) .FILES_THROTTLE 100000000 10 0 0 0
    (by decide)).2.1 (by decide)

/-- C4: `purge_timeout = 600`, and on the iteration at which
`elapsed ≥ purge_timeout`, the loop raises `Timeout` carrying the snapshot
just taken for that iteration — before any other test, whatever the snapshot's
contents (the theorem holds for every `perf`, even one whose sample satisfies
the completion condition). -/
theorem C4_timeout (perf : Nat → StatsSnapshot) (throttle_type : ThrottleType)
    (mo mf ti e fhw ohw : Nat) (h : purge_timeout ≤ e) :
    purge_timeout = 600 ∧
    run_loop perf throttle_type mo mf ti purge_timeout e fhw ohw =
      .Timeout (perf e) :=
  ⟨rfl, run_loop_timeout_eq perf throttle_type mo mf ti purge_timeout e fhw ohw h⟩

/-- Witness for C4: at `elapsed = 600` the run times out even though the
snapshot taken there (`wit_perf 600 = wit_snap1`) satisfies the completion
condition. -/
theorem C4_timeout_witness :
    (wit_perf 600).strays_purged = total_inodes ∧
    purge_timeout = 600 ∧
    run_loop wit_perf .OPS_THROTTLE 1 1 total_inodes purge_timeout 600 0 0 =
      .Timeout (wit_perf 600) :=
  ⟨by decide, C4_timeout wit_perf .OPS_THROTTLE 1 1 total_inodes 600 0 0 (by decide)⟩

/-- C5: the post-run high-water heuristic raises exactly when the high-water
mark of the limit under test is below half that limit (Python 2 integer
division): under `OPS_THROTTLE` iff `ops_high_water < mds_max_purge_ops / 2`,
under `FILES_THROTTLE` iff `files_high_water < mds_max_purge_files / 2`. -/
theorem C5_high_water_heuristic (throttle_type : ThrottleType)
    (mo mf ohw fhw : Nat) :
    high_water_check_raises throttle_type mo mf ohw fhw = true ↔
      ((throttle_type = .OPS_THROTTLE ∧ ohw < mo / 2) ∨
       (throttle_type = .FILES_THROTTLE ∧ fhw < mf / 2)) := by
  cases throttle_type <;> simp [high_water_check_raises]

set_option maxRecDepth 40000 in
/-- C6: `create_script` produces exactly one `(i, size)` file for each
`i ∈ range(0, 25)` and `size ∈ range(0, 16*MB, MB)` — 25 × 16 = 400 files,
each of `size / MB ∈ 0..15` whole megabytes — and together with the one
`delete_me` directory this makes 401 objects, which is exactly the literal
`total_inodes = 401` the monitor loop is run with (`run` unfolds to
`run_loop` applied to `total_inodes`). -/
theorem C6_workload_shape :
    create_script_files =
      (List.range 25).flatMap (fun i => (List.range 16).map (fun s => (i, s * MB))) ∧
    create_script_files.length = 25 * 16 ∧
    workload_object_count = create_script_files.length + 1 ∧
    workload_object_count = 401 ∧
    total_inodes = workload_object_count ∧
    create_script_files.all
      (fun p => decide (p.1 < 25) && decide (p.2 % MB = 0) &&
        decide (p.2 / MB < 16)) = true ∧
    run = fun perf throttle_type mo mf =>
      run_loop perf throttle_type mo mf total_inodes purge_timeout 0 0 0 :=
  ⟨by decide, by decide, rfl, by decide, by decide, by decide, rfl⟩

/-- C7: if the loop (entered with both accumulators at 0) returns
`Completed e' f' o'`, then `f'` is the maximum of `num_strays_purging` and
`o'` the maximum of `num_purge_ops` over all samples `perf 0 .. perf e'` —
running maxima starting at 0, updated before the completion test, so the
final, completing sample is included. -/
theorem C7_high_water_marks (perf : Nat → StatsSnapshot)
    (throttle_type : ThrottleType) (mo mf ti pt e' f' o' : Nat)
    (h : run_loop perf throttle_type mo mf ti pt 0 0 0 =
      RunOutcome.Completed e' f' o') :
    f' = List.foldl (fun a k => max a (perf k).num_strays_purging) 0
          (List.range (e' + 1)) ∧
    o' = List.foldl (fun a k => max a (perf k).num_purge_ops) 0
          (List.range (e' + 1)) := by
  obtain ⟨-, -, -, -, h5, h6⟩ := run_loop_completed_inv perf throttle_type mo mf ti pt
    pt 0 0 0 e' f' o' (by omega) h
  rw [List.range_eq_range']
  simpa using ⟨h5, h6⟩

theorem C7_high_water_marks_witness :
    4 = List.foldl (fun a k => max a (wit_perf k).num_strays_purging) 0
          (List.range 2) ∧
    3 = List.foldl (fun a k => max a (wit_perf k).num_purge_ops) 0
          (List.range 2) :=
  C7_high_water_marks wit_perf .FILES_THROTTLE 100000000 10 401 600 1 4 3
    wit_run_eval

/-- C8: the final sanity check passes exactly when the four transient counters
are all zero and both monotonic counters equal 401; any other snapshot fails
it (and hence makes the scenario raise an assertion error). -/
theorem C8_final_state (mdc_stats : StatsSnapshot) :
    final_sanity_check mdc_stats = true ↔
      (mdc_stats.num_strays = 0 ∧ mdc_stats.num_strays_purging = 0 ∧
       mdc_stats.num_strays_delayed = 0 ∧ mdc_stats.num_purge_ops = 0 ∧
       mdc_stats.strays_created = 401 ∧ mdc_stats.strays_purged = 401) := by
  simp [final_sanity_check, total_inodes, and_assoc]

/-- C9: completion takes precedence over the throttle-bound test within one
iteration: a sample reached before the timeout with
`strays_purged = total_inodes` and `num_strays_purging > mds_max_purge_files`
still makes the loop return `Completed` (for either kind), not the bound
violation — the bound test is only reached when neither the completion nor the
overshoot condition holds. -/
theorem C9_completion_precedence (perf : Nat → StatsSnapshot)
    (throttle_type : ThrottleType) (mo mf ti pt e fhw ohw : Nat)
    (hlt : e < pt) (hc : (perf e).strays_purged = ti)
    (_hb : mf < (perf e).num_strays_purging) :
    run_loop perf throttle_type mo mf ti pt e fhw ohw =
      .Completed e (max fhw (perf e).num_strays_purging)
        (max ohw (perf e).num_purge_ops) := by
  rw [run_loop_go_eq perf throttle_type mo mf ti pt e fhw ohw hlt,
      (throttle_step_complete_iff throttle_type mo mf ti fhw ohw (perf e)
        (max fhw (perf e).num_strays_purging) (max ohw (perf e).num_purge_ops)).mpr
        ⟨hc, rfl, rfl⟩]

theorem C9_completion_precedence_witness :
    run_loop (fun _ => cex_snap) .FILES_THROTTLE 100000000 10 401 600 0 0 0 =
      .Completed 0 (max 0 cex_snap.num_strays_purging)
        (max 0 cex_snap.num_purge_ops) :=
  C9_completion_precedence (fun _ => cex_snap) .FILES_THROTTLE 100000000 10 401 600
    0 0 0 (by decide) (by decide) (by decide)

/-- C10: the loop is insensitive to anything beyond the first
`purge_timeout + 1` samples — any two stats streams (however adversarial) that
agree on the samples at `elapsed = 0 .. purge_timeout` yield the same outcome,
because each iteration either terminates or advances `elapsed` by exactly one
— and the iteration at which `elapsed` reaches the timeout raises `Timeout`.
So every run terminates after at most `purge_timeout + 1` samples. -/
theorem C10_bounded_iterations (perf perf2 : Nat → StatsSnapshot)
    (throttle_type : ThrottleType) (mo mf ti pt fhw ohw : Nat)
    (hagree : ∀ k, k ≤ pt → perf k = perf2 k) :
    run_loop perf throttle_type mo mf ti pt 0 fhw ohw =
      run_loop perf2 throttle_type mo mf ti pt 0 fhw ohw ∧
    run_loop perf throttle_type mo mf ti pt pt fhw ohw = .Timeout (perf pt) :=
  ⟨run_loop_agree perf perf2 throttle_type mo mf ti pt pt 0 fhw ohw
      (Nat.zero_le pt) (by omega) (fun k _ hk2 => hagree k hk2),
   run_loop_timeout_eq perf throttle_type mo mf ti pt pt fhw ohw (Nat.le_refl pt)⟩

/-- A stream agreeing with `wit_perf` on samples 0..600 but adversarial
beyond. -/
def wit_perf_altered : Nat → StatsSnapshot :=
  fun n => if n ≤ 600 then wit_perf n else cex2_snap

theorem C10_bounded_iterations_witness :
    (run_loop wit_perf .FILES_THROTTLE 100000000 10 401 600 0 0 0 =
      run_loop wit_perf_altered .FILES_THROTTLE 100000000 10 401 600 0 0 0) ∧
    run_loop wit_perf .FILES_THROTTLE 100000000 10 401 600 600 0 0 =
      .Timeout (wit_perf 600) :=
  C10_bounded_iterations wit_perf wit_perf_altered .FILES_THROTTLE 100000000 10 401
    600 0 0 (fun k hk => by simp [wit_perf_altered, hk])
